import Mathlib

/-!
Verification of the batch-pattern detector
(src/server/api/scripts/ml-pattern-detector.py).

The Python source is embedded shallowly:

* a database row from `shielded_flows` becomes the structure `Tx`
  (txid, block_height, block_time, amount_zat, pool);
* numeric work that Python does with floats is carried out exactly over `ℚ`
  (the decimal literals 0.01, 0.001, 1e8, 3600 of the source are embedded as
  the exact rationals they denote);
* `np.std` is the square root of the population variance; the scorer only
  ever compares `std / mean` against positive constants, so the comparison
  is embedded by comparing the *square* `variance / mean^2` against the
  squared constants, which is equivalent for the non-negative quantities
  involved;
* the DBSCAN neighbourhood test `|log10(a+1) - log10(b+1)| <= eps` is a
  predicate on pairs of transactions; it is abstracted as an explicit
  boolean relation `close` handed to the clusterer, and the clustering
  algorithm itself (sklearn DBSCAN on one dimension) is embedded
  concretely;
* the database is abstracted: the list of fetched deshields and the
  `fetch_shields` lookup are parameters of `detect_patterns`;
* fallible code (`min`/`max` of an empty cluster would raise) returns
  `Option`.
-/

/-- A row of `shielded_flows` as fetched by `fetch_deshields` /
`fetch_shields`: txid, block_height, block_time, amount_zat, pool. -/
structure Tx where
  txid : String
  block_height : ℤ
  block_time : ℤ
  amount_zat : ℤ
  pool : String
deriving DecidableEq, Repr

instance : Inhabited Tx := ⟨⟨"", 0, 0, 0, ""⟩⟩

/-- Python `%` on exact numbers with a positive divisor: `x - d * floor (x / d)`
(Python rounds the quotient toward minus infinity). -/
def pymod (x d : ℚ) : ℚ := x - d * ⌊x / d⌋

/-- Python `int(...)` on an exact number: truncation toward zero. -/
def pyint (q : ℚ) : ℤ := if 0 ≤ q then ⌊q⌋ else ⌈q⌉

/-- The value of `np.mean(amounts)` for integer amounts, exactly. -/
def np_mean (amounts : List ℤ) : ℚ :=
  ((amounts.map (Int.cast : ℤ → ℚ)).sum) / (amounts.length : ℚ)

/-- The square of `np.std(amounts)` (population variance, `ddof = 0`),
exactly: the mean of the squared deviations from the mean. -/
def np_var (amounts : List ℤ) : ℚ :=
  ((amounts.map (fun a => ((a : ℚ) - np_mean amounts) ^ 2)).sum) / (amounts.length : ℚ)

/-- Factor 1 of `score_cluster`: cluster size (source lines 243-252). -/
def size_score_fn (size : ℕ) : ℕ :=
  if 12 ≤ size then 30
  else if 8 ≤ size then 22
  else if 5 ≤ size then 15
  else 10

/-- Factor 2 of `score_cluster` (source lines 256-266), taking the *square*
of the coefficient of variation `cv = amount_std / avg_amount`: the source
tests `cv < 0.0001`, `cv < 0.001`, `cv < 0.01` on the non-negative `cv`,
which is equivalent to testing `cv^2` against the squared constants. -/
def uniformity_score_fn (cv2 : ℚ) : ℕ :=
  if cv2 < 1 / 100000000 then 15
  else if cv2 < 1 / 1000000 then 10
  else if cv2 < 1 / 10000 then 5
  else 0

/-- Factor 3 of `score_cluster`: round-number detection on the mean amount in
ZEC (source lines 272-288). The tolerances are the absolute literals `0.01`
and `0.001` of the source. The bonus branch reads the already-computed
uniformity points. -/
def round_score_fn (amount_zec : ℚ) (uniformity_score : ℕ) : ℕ :=
  if 1000 ≤ amount_zec ∧ pymod amount_zec 1000 < 1 / 100 then 20
  else if 500 ≤ amount_zec ∧ pymod amount_zec 500 < 1 / 100 then 18
  else if 100 ≤ amount_zec ∧ pymod amount_zec 100 < 1 / 100 then 15
  else if 50 ≤ amount_zec ∧ pymod amount_zec 50 < 1 / 100 then 12
  else if 10 ≤ amount_zec ∧ pymod amount_zec 10 < 1 / 100 then 10
  else if 1 ≤ amount_zec ∧ pymod amount_zec 1 < 1 / 1000 then 5
  else if 10 ≤ uniformity_score then 8
  else 0

/-- Factor 4 of `score_cluster`: time clustering over the span in hours
(source lines 292-301). -/
def time_score_fn (time_span_hours : ℚ) : ℕ :=
  if time_span_hours < 6 then 12
  else if time_span_hours < 24 then 10
  else if time_span_hours < 72 then 6
  else if time_span_hours < 168 then 3
  else 0

/-- Factor 5 of `score_cluster`: percent difference between the cluster total
and the matched shield amount (source lines 306-321); `diff_pct` is 100 when
the shield amount is not positive. Only called when a shield was matched. -/
def match_score_fn (total_deshielded : ℤ) (shield_amount : ℤ) : ℕ :=
  let diff_pct : ℚ :=
    if 0 < shield_amount
    then |(total_deshielded : ℚ) - (shield_amount : ℚ)| / (shield_amount : ℚ) * 100
    else 100
  if diff_pct < 1 / 100 then 25
  else if diff_pct < 1 / 10 then 22
  else if diff_pct < 1 then 18
  else if diff_pct < 5 then 12
  else 5

/-- The warning level derived from the capped score (source lines 333-338). -/
def warning_level_fn (score : ℕ) : String :=
  if 70 ≤ score then "HIGH"
  else if 50 ≤ score then "MEDIUM"
  else "LOW"

/-- The dictionary returned by `score_cluster`: total score, warning level,
and the per-factor breakdown (measured value and awarded points). `cv2` is
the square of the breakdown field `cv`. -/
structure ScoreResult where
  score : ℕ
  warning_level : String
  size_count : ℕ
  size_points : ℕ
  cv2 : ℚ
  uniformity_points : ℕ
  amount_zec : ℚ
  is_round : Bool
  round_points : ℕ
  time_span_hours : ℚ
  time_points : ℕ
  match_found : Bool
  match_txid : Option String
  match_points : ℕ
deriving DecidableEq, Repr

/-- The scorer `score_cluster` (source lines 218-349). `none` on an empty
cluster, where the source `min(times)` would raise; the detector only ever
scores non-empty clusters. The score is the capped sum of the five factors;
`is_round` is the breakdown flag `round_score >= 10`. -/
def score_cluster (cluster : List Tx) (matching_shield : Option Tx := none) :
    Option ScoreResult :=
  match cluster with
  | [] => none
  | t :: ts =>
    let amounts := (t :: ts).map Tx.amount_zat
    let avg_amount : ℚ := np_mean amounts
    let amount_var : ℚ := np_var amounts
    let amount_zec : ℚ := avg_amount / 100000000
    let first_time : ℤ := (ts.map Tx.block_time).foldl min t.block_time
    let last_time : ℤ := (ts.map Tx.block_time).foldl max t.block_time
    let time_span_hours : ℚ := ((last_time - first_time : ℤ) : ℚ) / 3600
    let size := (t :: ts).length
    let size_score := size_score_fn size
    let cv2 : ℚ := if 0 < avg_amount then amount_var / avg_amount ^ 2 else 0
    let uniformity_score := uniformity_score_fn cv2
    let round_score := round_score_fn amount_zec uniformity_score
    let time_score := time_score_fn time_span_hours
    let match_score : ℕ :=
      match matching_shield with
      | some s => match_score_fn amounts.sum s.amount_zat
      | none => 0
    let score := min (size_score + uniformity_score + round_score + time_score + match_score) 100
    some {
      score := score
      warning_level := warning_level_fn score
      size_count := size
      size_points := size_score
      cv2 := cv2
      uniformity_points := uniformity_score
      amount_zec := amount_zec
      is_round := decide (10 ≤ round_score)
      round_points := round_score
      time_span_hours := time_span_hours
      time_points := time_score
      match_found := matching_shield.isSome
      match_txid := matching_shield.map Tx.txid
      match_points := match_score }

/-! ## The pattern hash (source lines 115-118)

The source joins the sorted txids with commas, UTF-8 encodes the result and
takes the SHA-256 hex digest. SHA-256 is embedded concretely below over byte
lists represented as `List ℕ` with 32-bit words as naturals reduced mod
`2 ^ 32`; `sorted` is the stable lexicographic string sort of Python and
`encode()` is UTF-8. -/

/-- Reduction of a natural to a 32-bit word. -/
def w32 (n : ℕ) : ℕ := n % 4294967296

/-- Right rotation of a 32-bit word. -/
def rotr32 (x n : ℕ) : ℕ := w32 ((x >>> n) ||| (x <<< (32 - n)))

/-- The SHA-256 choice function. -/
def sha_ch (x y z : ℕ) : ℕ := (x &&& y) ^^^ ((x ^^^ 4294967295) &&& z)

/-- The SHA-256 majority function. -/
def sha_maj (x y z : ℕ) : ℕ := (x &&& y) ^^^ (x &&& z) ^^^ (y &&& z)

/-- The SHA-256 big sigma-0 function. -/
def sha_bsig0 (x : ℕ) : ℕ := rotr32 x 2 ^^^ rotr32 x 13 ^^^ rotr32 x 22

/-- The SHA-256 big sigma-1 function. -/
def sha_bsig1 (x : ℕ) : ℕ := rotr32 x 6 ^^^ rotr32 x 11 ^^^ rotr32 x 25

/-- The SHA-256 small sigma-0 function. -/
def sha_ssig0 (x : ℕ) : ℕ := rotr32 x 7 ^^^ rotr32 x 18 ^^^ (x >>> 3)

/-- The SHA-256 small sigma-1 function. -/
def sha_ssig1 (x : ℕ) : ℕ := rotr32 x 17 ^^^ rotr32 x 19 ^^^ (x >>> 10)

/-- The SHA-256 round constants. -/
def sha_k : List ℕ :=
  [  1116352408, 1899447441, 3049323471, 3921009573, 961987163, 1508970993,
   2453635748, 2870763221, 3624381080, 310598401, 607225278, 1426881987,
   1925078388, 2162078206, 2614888103, 3248222580, 3835390401, 4022224774,
   264347078, 604807628, 770255983, 1249150122, 1555081692, 1996064986,
   2554220882, 2821834349, 2952996808, 3210313671, 3336571891, 3584528711,
   113926993, 338241895, 666307205, 773529912, 1294757372, 1396182291,
   1695183700, 1986661051, 2177026350, 2456956037, 2730485921, 2820302411,
   3259730800, 3345764771, 3516065817, 3600352804, 4094571909, 275423344,
   430227734, 506948616, 659060556, 883997877, 958139571, 1322822218,
   1537002063, 1747873779, 1955562222, 2024104815, 2227730452, 2361852424,
   2428436474, 2756734187, 3204031479, 3329325298]

/-- The SHA-256 initial hash value. -/
def sha_h0 : List ℕ :=
  [1779033703, 3144134277, 1013904242, 2773480762, 1359893119, 2600822924, 528734635, 1541459225]

/-- Big-endian bytes of a natural, `k` bytes wide. -/
def to_bytes_be (k n : ℕ) : List ℕ :=
  (List.range k).map (fun i => (n >>> (8 * (k - 1 - i))) % 256)

/-- SHA-256 message padding: append the byte 0x80, zero bytes up to 56 mod
64, then the bit length as an 8-byte big-endian integer. -/
def sha_pad (msg : List ℕ) : List ℕ :=
  msg ++ [128] ++ List.replicate ((119 - msg.length % 64) % 64) 0 ++ to_bytes_be 8 (8 * msg.length)

/-- Big-endian 32-bit words from a byte list taken four bytes at a time. -/
def bytes_to_words : List ℕ → List ℕ
  | b0 :: b1 :: b2 :: b3 :: rest => (((b0 * 256 + b1) * 256 + b2) * 256 + b3) :: bytes_to_words rest
  | _ => []

/-- Extension of the 16 block words to the 64-entry message schedule. -/
def sha_extend (w : List ℕ) : List ℕ :=
  (List.range 48).foldl
    (fun acc i =>
      acc ++ [w32 (sha_ssig1 (acc.getD (14 + i) 0) + acc.getD (9 + i) 0 +
        sha_ssig0 (acc.getD (1 + i) 0) + acc.getD i 0)])
    w

/-- One SHA-256 block compression: 64 rounds over the schedule, then the
feed-forward addition of the incoming state. -/
def sha_compress (h w : List ℕ) : List ℕ :=
  let final := (sha_k.zip (sha_extend w)).foldl
    (fun st kw =>
      match st with
      | [a, b, c, d, e, f, g, hh] =>
        let t1 := w32 (hh + sha_bsig1 e + sha_ch e f g + kw.1 + kw.2)
        let t2 := w32 (sha_bsig0 a + sha_maj a b c)
        [w32 (t1 + t2), a, b, c, w32 (d + t1), e, f, g]
      | other => other)
    h
  (h.zip final).map (fun p => w32 (p.1 + p.2))

/-- The eight 32-bit words of the SHA-256 digest of a byte message. -/
def sha256_words (msg : List ℕ) : List ℕ :=
  let padded := sha_pad msg
  (List.range (padded.length / 64)).foldl
    (fun h i => sha_compress h (bytes_to_words ((padded.drop (64 * i)).take 64)))
    sha_h0

/-- A lowercase hexadecimal digit. -/
def hex_char (n : ℕ) : Char := if n < 10 then Char.ofNat (48 + n) else Char.ofNat (87 + n)

/-- The eight lowercase hex characters of a 32-bit word, most significant
first. -/
def word_hex (n : ℕ) : List Char :=
  (List.range 8).map (fun i => hex_char ((n >>> (4 * (7 - i))) % 16))

/-- The value of `hashlib.sha256(msg).hexdigest()` on a byte message. -/
def sha256_hexdigest (msg : List ℕ) : String :=
  String.mk (((sha256_words msg).map word_hex).flatten)

/-- UTF-8 encoding of one Unicode code point. -/
def utf8_encode_char (c : ℕ) : List ℕ :=
  if c < 128 then [c]
  else if c < 2048 then [192 + c / 64, 128 + c % 64]
  else if c < 65536 then [224 + c / 4096, 128 + (c / 64) % 64, 128 + c % 64]
  else [240 + c / 262144, 128 + (c / 4096) % 64, 128 + (c / 64) % 64, 128 + c % 64]

/-- The value of Python `s.encode()`: the UTF-8 bytes of a string. -/
def utf8_bytes (s : String) : List ℕ :=
  (s.toList.map (fun ch => utf8_encode_char ch.toNat)).flatten

/-- Python `sorted` on strings: a stable sort under the lexicographic
code-point order. -/
def py_sorted (l : List String) : List String :=
  l.mergeSort (fun a b => decide (a ≤ b))

/-- The pattern hash `generate_pattern_hash` (source lines 115-118): the
SHA-256 hex digest of the comma-joined, UTF-8 encoded sorted txid list. -/
def generate_pattern_hash (txids : List String) : String :=
  sha256_hexdigest (utf8_bytes (String.intercalate "," (py_sorted txids)))

/-! ## The clusterer (source lines 180-215)

`cluster_by_amount` transforms amounts to `log10(amount + 1)` and runs
sklearn DBSCAN with Euclidean metric and radius `eps` over the transformed
line. The only thing DBSCAN reads from the data is, for each pair of
points, whether their distance is at most `eps`; that boolean
neighbourhood test `|log10(a+1) - log10(b+1)| <= eps` (a real-valued,
float-computed predicate) is passed in here as the explicit relation
`close`, and the DBSCAN algorithm itself is embedded concretely: core
points are the points with at least `min_samples` neighbours (the point
itself included, distance 0), clusters grow from each unlabeled core
point in index order by breadth-first expansion, border points take the
label of the first cluster reaching them, unlabeled points are noise
(sklearn label `-1`) and are dropped. For any amounts, `close` is
reflexive and holds between transactions of equal amount (distance 0). -/

/-- Indices of the neighbours of point `i` (those within `eps`, which the
relation `close` decides), as sklearn computes them: the point itself is
its own neighbour whenever `close` is reflexive at it. -/
def nbrs (close : Tx → Tx → Bool) (pts : List Tx) (i : ℕ) : List ℕ :=
  (List.range pts.length).filter (fun j => close (pts.getD i default) (pts.getD j default))

/-- Breadth-first cluster expansion: label each unlabeled queued point with
`cid`, and enqueue the neighbours of those that are core points. `fuel`
bounds the loop; `n * n + n + 1` steps always suffice since each labelling
enqueues at most `n` indices and each step consumes one. -/
def dbscan_expand (close : Tx → Tx → Bool) (pts : List Tx) (min_samples cid : ℕ) :
    ℕ → List ℕ → List (Option ℕ) → List (Option ℕ)
  | 0, _, labels => labels
  | _ + 1, [], labels => labels
  | fuel + 1, j :: queue, labels =>
    match labels.getD j none with
    | some _ => dbscan_expand close pts min_samples cid fuel queue labels
    | none =>
      let labels2 := labels.set j (some cid)
      let queue2 :=
        if min_samples ≤ (nbrs close pts j).length then queue ++ nbrs close pts j else queue
      dbscan_expand close pts min_samples cid fuel queue2 labels2

/-- The outer DBSCAN loop: visit the points in index order; an unlabeled
core point starts the next cluster, anything else is left for later
expansion or remains noise. -/
def dbscan_loop (close : Tx → Tx → Bool) (pts : List Tx) (min_samples : ℕ) :
    List ℕ → ℕ → List (Option ℕ) → List (Option ℕ)
  | [], _, labels => labels
  | i :: rest, next_cid, labels =>
    match labels.getD i none with
    | some _ => dbscan_loop close pts min_samples rest next_cid labels
    | none =>
      if min_samples ≤ (nbrs close pts i).length then
        let n := pts.length
        let labels2 := dbscan_expand close pts min_samples next_cid (n * n + n + 1) [i] labels
        dbscan_loop close pts min_samples rest (next_cid + 1) labels2
      else dbscan_loop close pts min_samples rest next_cid labels

/-- The DBSCAN label of each point (`none` = noise, sklearn label `-1`). -/
def dbscan_labels (close : Tx → Tx → Bool) (pts : List Tx) (min_samples : ℕ) :
    List (Option ℕ) :=
  dbscan_loop close pts min_samples (List.range pts.length) 0
    (List.replicate pts.length none)

/-- Append transaction `t` to the group of `label`, creating the group at
the end when absent — Python dict insertion-order semantics. -/
def add_to_group (groups : List (ℕ × List Tx)) (label : ℕ) (t : Tx) :
    List (ℕ × List Tx) :=
  match groups with
  | [] => [(label, [t])]
  | (l, g) :: rest =>
    if l = label then (l, g ++ [t]) :: rest else (l, g) :: add_to_group rest label t

/-- The dictionary mapping each cluster label to its member transactions
(source lines 207-213): iterate the points in index order, skip noise,
group by label; the association list keeps the first-appearance order of
the labels, as a Python dict does. -/
def group_clusters (pts : List Tx) (labels : List (Option ℕ)) : List (ℕ × List Tx) :=
  (List.range pts.length).foldl
    (fun groups i =>
      match labels.getD i none with
      | none => groups
      | some lab => add_to_group groups lab (pts.getD i default))
    []

/-- The clusterer `cluster_by_amount` (source lines 180-215): an empty
mapping when fewer than `min_samples` transactions are given, otherwise
the DBSCAN clusters of the input. `eps` of the source is absorbed into
the neighbourhood relation `close`. -/
def cluster_by_amount (close : Tx → Tx → Bool) (deshields : List Tx)
    (min_samples : ℕ) : List (ℕ × List Tx) :=
  if deshields.length < min_samples then []
  else group_clusters deshields (dbscan_labels close deshields min_samples)

/-! ## Pattern assembly and the detection pipeline (source lines 352-481) -/

/-- Python `min` over a list of integers; the source raises on an empty
list, which the pipeline never passes (clusters are non-empty). -/
def list_min_int (l : List ℤ) : ℤ :=
  match l with
  | [] => 0
  | x :: xs => xs.foldl min x

/-- Python `max` over a list of integers, as `list_min_int`. -/
def list_max_int (l : List ℤ) : ℤ :=
  match l with
  | [] => 0
  | x :: xs => xs.foldl max x

/-- The pattern record built by `build_pattern` (source lines 352-409).
The derived float fields `per_tx_amount_zec` / `total_amount_zec`, the
`metadata` JSON and the float-formatted `explanation` string are display
duplicates of the fields below and are omitted; no claim mentions them. -/
structure Pattern where
  pattern_type : String
  detection_method : String
  batch_count : ℕ
  per_tx_amount_zat : ℤ
  total_amount_zat : ℤ
  txids : List String
  heights : List ℤ
  times : List ℤ
  first_time : ℤ
  last_time : ℤ
  time_span_hours : ℚ
  score : ℕ
  warning_level : String
  is_round : Bool
  shield_txids : List String
deriving DecidableEq, Repr

/-- The assembler `build_pattern` (source lines 352-409): collect the
cluster statistics and the score result into the stored record;
`per_tx_amount_zat` is `int(np.mean(amounts))`. -/
def build_pattern (cluster : List Tx) (score_result : ScoreResult)
    (matching_shield : Option Tx) : Pattern :=
  let amounts := cluster.map Tx.amount_zat
  let times := cluster.map Tx.block_time
  { pattern_type := "BATCH_DESHIELD_ML"
    detection_method := "DBSCAN_CLUSTERING"
    batch_count := cluster.length
    per_tx_amount_zat := pyint (np_mean amounts)
    total_amount_zat := amounts.sum
    txids := cluster.map Tx.txid
    heights := cluster.map Tx.block_height
    times := times
    first_time := list_min_int times
    last_time := list_max_int times
    time_span_hours := ((list_max_int times - list_min_int times : ℤ) : ℚ) / 3600
    score := score_result.score
    warning_level := score_result.warning_level
    is_round := score_result.is_round
    shield_txids :=
      match matching_shield with
      | some s => [s.txid]
      | none => [] }

/-- The per-cluster body of the `detect_patterns` loop (source lines
451-476): skip clusters below `min_cluster_size`, look up the best
matching shield for the cluster total before its first time, score, drop
scores below 35, assemble the rest. `fetch_shields` abstracts the ranked
database query of source lines 85-112; only its top candidate is used. -/
def collect_patterns (fetch_shields : ℤ → ℤ → List Tx)
    (clusters : List (ℕ × List Tx)) (min_cluster_size : ℕ) : List Pattern :=
  clusters.filterMap
    (fun lc =>
      let cluster := lc.2
      if cluster.length < min_cluster_size then none
      else
        let total_zat := (cluster.map Tx.amount_zat).sum
        let first_time := list_min_int (cluster.map Tx.block_time)
        let matching_shield := (fetch_shields total_zat first_time).head?
        match score_cluster cluster matching_shield with
        | none => none
        | some r => if r.score < 35 then none else some (build_pattern cluster r matching_shield))

/-- The pipeline `detect_patterns` (source lines 416-481), with the
database abstracted: `deshields` stands for the fetched candidate rows
and `fetch_shields` for the shield lookup. Zero results when fewer than
`min_cluster_size` candidates; otherwise cluster, score and assemble,
then sort by descending score — Python `list.sort(key=score,
reverse=True)` is stable, embedded as a stable merge sort under the
relation taking `a` before `b` whenever `b.score ≤ a.score`. -/
def detect_patterns (close : Tx → Tx → Bool) (fetch_shields : ℤ → ℤ → List Tx)
    (deshields : List Tx) (min_cluster_size : ℕ) : List Pattern :=
  if deshields.length < min_cluster_size then []
  else
    (collect_patterns fetch_shields (cluster_by_amount close deshields min_cluster_size)
        min_cluster_size).mergeSort
      (fun a b => decide (b.score ≤ a.score))

/-! ## Alternative readings of the round-number rule -/

/-- The round-number factor under the reading that each denomination `d`
carries a remainder tolerance *relative* to `d` — below 1% of `d`, and
below 0.1% of `d` for the unit denomination. The source instead compares
every remainder against the absolute literals `0.01` / `0.001` ZEC; the
two readings agree only for the denominations 1 (and coincidentally
nowhere else on the ladder). -/
def round_score_relative_tol (amount_zec : ℚ) (uniformity_score : ℕ) : ℕ :=
  if 1000 ≤ amount_zec ∧ pymod amount_zec 1000 < 1000 / 100 then 20
  else if 500 ≤ amount_zec ∧ pymod amount_zec 500 < 500 / 100 then 18
  else if 100 ≤ amount_zec ∧ pymod amount_zec 100 < 100 / 100 then 15
  else if 50 ≤ amount_zec ∧ pymod amount_zec 50 < 50 / 100 then 12
  else if 10 ≤ amount_zec ∧ pymod amount_zec 10 < 10 / 100 then 10
  else if 1 ≤ amount_zec ∧ pymod amount_zec 1 < 1 / 1000 then 5
  else if 10 ≤ uniformity_score then 8
  else 0

/-- The denomination ladder of the source as a literal decision table:
denomination, absolute remainder tolerance in ZEC, awarded points. -/
def round_ladder : List (ℚ × ℚ × ℕ) :=
  [(1000, 1 / 100, 20), (500, 1 / 100, 18), (100, 1 / 100, 15),
   (50, 1 / 100, 12), (10, 1 / 100, 10), (1, 1 / 1000, 5)]

/-- The round-number factor read off the decision table: the first
denomination `d` of the ladder with `d ≤ amount` and remainder below the
absolute tolerance awards its points; with no match, uniformity points of
at least 10 award the non-round-but-identical bonus 8, else 0. -/
def round_score_table (amount_zec : ℚ) (uniformity_score : ℕ) : ℕ :=
  match round_ladder.find?
      (fun e => decide (e.1 ≤ amount_zec ∧ pymod amount_zec e.1 < e.2.1)) with
  | some e => e.2.2
  | none => if 10 ≤ uniformity_score then 8 else 0

/-! ## Concrete scenario inputs -/

/-- A deshield row with the given txid, block time and amount. -/
def tx_of (name : String) (time : ℤ) (amount : ℤ) : Tx :=
  ⟨name, 0, time, amount, "sapling"⟩

/-- Scenario A: twelve transactions of exactly 500 ZEC (500 × 10^8 zat)
whose timestamps span two hours. -/
def clusterA : List Tx :=
  [tx_of "a01" 0 50000000000, tx_of "a02" 0 50000000000, tx_of "a03" 0 50000000000,
   tx_of "a04" 0 50000000000, tx_of "a05" 0 50000000000, tx_of "a06" 0 50000000000,
   tx_of "a07" 0 50000000000, tx_of "a08" 0 50000000000, tx_of "a09" 0 50000000000,
   tx_of "a10" 0 50000000000, tx_of "a11" 0 50000000000, tx_of "a12" 7200 50000000000]

/-- Scenario B: eight transactions of exactly 637.5 ZEC (637.5 × 10^8 zat)
whose timestamps span twenty hours. -/
def clusterB : List Tx :=
  [tx_of "b1" 0 63750000000, tx_of "b2" 0 63750000000, tx_of "b3" 0 63750000000,
   tx_of "b4" 0 63750000000, tx_of "b5" 0 63750000000, tx_of "b6" 0 63750000000,
   tx_of "b7" 0 63750000000, tx_of "b8" 72000 63750000000]

/-- Three identical transactions of 10.05 ZEC: an amount within 1% of the
denomination 10 but outside the absolute 0.01-ZEC tolerance. -/
def clusterTol : List Tx :=
  [tx_of "t1" 0 1005000000, tx_of "t2" 0 1005000000, tx_of "t3" 0 1005000000]

/-- The score result of a singleton cluster holding one 1-ZEC transaction
at time 0: size 10, uniformity 15, round 5 (denomination 1), time 12,
no match, total 42, LOW. -/
def scoreResultW : ScoreResult :=
  { score := 42, warning_level := "LOW", size_count := 1, size_points := 10,
    cv2 := 0, uniformity_points := 15, amount_zec := 1, is_round := false,
    round_points := 5, time_span_hours := 0, time_points := 12,
    match_found := false, match_txid := none, match_points := 0 }

/-- The score result of a singleton cluster holding one zero-amount
transaction at time 0: the mean is zero, so `cv` is defined to be 0 and
uniformity awards 15; no denomination matches amount 0, so the
non-round-but-identical bonus 8 applies; total 45, LOW. -/
def scoreResultZ : ScoreResult :=
  { score := 45, warning_level := "LOW", size_count := 1, size_points := 10,
    cv2 := 0, uniformity_points := 15, amount_zec := 0, is_round := false,
    round_points := 8, time_span_hours := 0, time_points := 12,
    match_found := false, match_txid := none, match_points := 0 }

instance : IsAntisymm String (· ≤ ·) := ⟨fun _ _ => le_antisymm⟩

/-! ## Theorems -/

/-- The threshold table of `warning_level_fn`, for any score. -/
theorem warning_level_fn_spec (s : ℕ) :
    (70 ≤ s → warning_level_fn s = "HIGH") ∧
    (50 ≤ s ∧ s < 70 → warning_level_fn s = "MEDIUM") ∧
    (s < 50 → warning_level_fn s = "LOW") := by
  refine ⟨fun h1 => ?_, fun h2 => ?_, fun h3 => ?_⟩ <;>
    · simp only [warning_level_fn]
      split_ifs <;> first | rfl | omega

/-- C1: every score the scorer returns is between 0 and 100, and the
warning level is the pure threshold function of the score: HIGH at 70 and
above, MEDIUM from 50 below 70, LOW below 50. -/
theorem score_cluster_bounds_and_warning (cluster : List Tx) (shield : Option Tx)
    (r : ScoreResult) (h : score_cluster cluster shield = some r) :
    0 ≤ r.score ∧ r.score ≤ 100 ∧
    (70 ≤ r.score → r.warning_level = "HIGH") ∧
    (50 ≤ r.score ∧ r.score < 70 → r.warning_level = "MEDIUM") ∧
    (r.score < 50 → r.warning_level = "LOW") := by
  cases cluster with
  | nil => simp [score_cluster] at h
  | cons t ts =>
    simp only [score_cluster] at h
    rw [Option.some.injEq] at h
    subst h
    exact ⟨Nat.zero_le _, Nat.min_le_right _ _,
      (warning_level_fn_spec _).1,
      (warning_level_fn_spec _).2.1,
      (warning_level_fn_spec _).2.2⟩

/-- C6: the size factor is monotone in the cluster size, and the
uniformity factor never decreases when the coefficient of variation
decreases (coefficients enter the embedded factor squared, see
`uniformity_score_fn`). -/
theorem size_uniformity_monotone (m n : ℕ) (c d : ℚ)
    (hmn : m ≤ n) (hd : 0 ≤ d) (hdc : d ≤ c) :
    size_score_fn m ≤ size_score_fn n ∧
    uniformity_score_fn (c ^ 2) ≤ uniformity_score_fn (d ^ 2) := by
  constructor
  · simp only [size_score_fn]
    split_ifs <;> omega
  · have hsq : d ^ 2 ≤ c ^ 2 := by
      have := mul_self_le_mul_self hd hdc
      simpa [pow_two] using this
    simp only [uniformity_score_fn]
    split_ifs <;> first | omega | (exfalso; linarith)

/-- Witness for C6 at cluster sizes 3 ≤ 5 and coefficients 0 ≤ 1. -/
theorem size_uniformity_monotone_witness :
    size_score_fn 3 ≤ size_score_fn 5 ∧
    uniformity_score_fn ((1 : ℚ) ^ 2) ≤ uniformity_score_fn ((0 : ℚ) ^ 2) :=
  size_uniformity_monotone 3 5 1 0 (by norm_num) (by norm_num) (by norm_num)

/-- C7: given fewer transactions than `min_samples`, the clusterer returns
the empty mapping, whatever the neighbourhood relation. -/
theorem cluster_by_amount_too_few (close : Tx → Tx → Bool) (deshields : List Tx)
    (min_samples : ℕ) (h : deshields.length < min_samples) :
    cluster_by_amount close deshields min_samples = [] := by
  simp [cluster_by_amount, h]

/-- Witness for C7: two transactions, `min_samples` 3. -/
theorem cluster_by_amount_too_few_witness :
    cluster_by_amount (fun _ _ => true) [tx_of "w1" 0 5, tx_of "w2" 0 5] 3 = [] :=
  cluster_by_amount_too_few _ _ _ (by norm_num)

/-- C2 counterexample: on three identical 10.05-ZEC transactions the mean
is 10.05 ZEC, which under the relative-tolerance reading matches the
denomination 10 (remainder 0.05 below 1% of 10) and would award 10
points; the scorer awards the bonus 8 instead, because 0.05 is not below
the absolute 0.01-ZEC tolerance the source uses. -/
theorem round_tolerance_counterexample :
    (score_cluster clusterTol none).map ScoreResult.amount_zec = some (201 / 20) ∧
    (score_cluster clusterTol none).map ScoreResult.uniformity_points = some 15 ∧
    (score_cluster clusterTol none).map ScoreResult.round_points = some 8 ∧
    round_score_relative_tol (201 / 20) 15 = 10 := by
  refine ⟨?_, ?_, ?_, ?_⟩ <;>
    norm_num [score_cluster, clusterTol, tx_of, np_mean, np_var, pymod,
      size_score_fn, uniformity_score_fn, round_score_fn, time_score_fn,
      warning_level_fn, round_score_relative_tol]

/-- C2 as amended: the round-number factor of the scorer equals the
first-match decision table over the literal denomination ladder with the
absolute tolerances 0.01 ZEC (0.001 ZEC for the unit denomination), and
the bonus 8 exactly when no denomination matches but uniformity scored at
least 10. -/
theorem round_score_fn_eq_table (z : ℚ) (u : ℕ) :
    round_score_fn z u = round_score_table z u := by
  simp only [round_score_fn, round_score_table, round_ladder, List.find?_cons, List.find?_nil]
  dsimp only
  by_cases h1 : 1000 ≤ z ∧ pymod z 1000 < 1 / 100
  · rw [if_pos h1, decide_eq_true h1]
  rw [if_neg h1, decide_eq_false h1]
  by_cases h2 : 500 ≤ z ∧ pymod z 500 < 1 / 100
  · rw [if_pos h2, decide_eq_true h2]
  rw [if_neg h2, decide_eq_false h2]
  by_cases h3 : 100 ≤ z ∧ pymod z 100 < 1 / 100
  · rw [if_pos h3, decide_eq_true h3]
  rw [if_neg h3, decide_eq_false h3]
  by_cases h4 : 50 ≤ z ∧ pymod z 50 < 1 / 100
  · rw [if_pos h4, decide_eq_true h4]
  rw [if_neg h4, decide_eq_false h4]
  by_cases h5 : 10 ≤ z ∧ pymod z 10 < 1 / 100
  · rw [if_pos h5, decide_eq_true h5]
  rw [if_neg h5, decide_eq_false h5]
  by_cases h6 : 1 ≤ z ∧ pymod z 1 < 1 / 1000
  · rw [if_pos h6, decide_eq_true h6]
  rw [if_neg h6, decide_eq_false h6]

/-- C3 counterexample: Scenario A (12 × 500 ZEC over two hours, no match)
scores 75, not the claimed 77 — the mean of 500 ZEC matches the
denomination 500 for 18 round-number points, not 20. -/
theorem scenarioA_score_not_77 :
    (score_cluster clusterA none).map ScoreResult.score = some 75 ∧
    (score_cluster clusterA none).map ScoreResult.score ≠ some 77 ∧
    (score_cluster clusterA none).map ScoreResult.round_points = some 18 := by
  have h75 : (score_cluster clusterA none).map ScoreResult.score = some 75 := by
    norm_num [score_cluster, clusterA, tx_of, np_mean, np_var, pymod, size_score_fn,
      uniformity_score_fn, round_score_fn, time_score_fn, warning_level_fn]
  refine ⟨h75, by rw [h75]; simp, ?_⟩
  norm_num [score_cluster, clusterA, tx_of, np_mean, np_var, pymod, size_score_fn,
    uniformity_score_fn, round_score_fn, time_score_fn, warning_level_fn]

/-- C3 as amended: Scenario A awards 30 for cluster size, 15 for
uniformity, 18 for round-number (denomination 500), 12 for time
concentration and 0 for funding match, for a total of 75 and warning
level HIGH. -/
theorem scenarioA_breakdown :
    score_cluster clusterA none =
      some { score := 75, warning_level := "HIGH", size_count := 12, size_points := 30,
             cv2 := 0, uniformity_points := 15, amount_zec := 500, is_round := true,
             round_points := 18, time_span_hours := 2, time_points := 12,
             match_found := false, match_txid := none, match_points := 0 } := by
  norm_num [score_cluster, clusterA, tx_of, np_mean, np_var, pymod, size_score_fn,
    uniformity_score_fn, round_score_fn, time_score_fn, warning_level_fn]

/-- C4: Scenario B (8 × 637.5 ZEC over twenty hours, no match) awards 22
for cluster size, 15 for uniformity, the non-round bonus 8, 10 for time
concentration and 0 for funding match, for a total of 55 and warning
level MEDIUM. -/
theorem scenarioB_breakdown :
    score_cluster clusterB none =
      some { score := 55, warning_level := "MEDIUM", size_count := 8, size_points := 22,
             cv2 := 0, uniformity_points := 15, amount_zec := 1275 / 2, is_round := false,
             round_points := 8, time_span_hours := 20, time_points := 10,
             match_found := false, match_txid := none, match_points := 0 } := by
  norm_num [score_cluster, clusterB, tx_of, np_mean, np_var, pymod, size_score_fn,
    uniformity_score_fn, round_score_fn, time_score_fn, warning_level_fn]

/-- Witness for C1 at a singleton cluster of one 1-ZEC transaction. -/
theorem score_cluster_bounds_and_warning_witness :
    0 ≤ scoreResultW.score ∧ scoreResultW.score ≤ 100 ∧
    (70 ≤ scoreResultW.score → scoreResultW.warning_level = "HIGH") ∧
    (50 ≤ scoreResultW.score ∧ scoreResultW.score < 70 →
      scoreResultW.warning_level = "MEDIUM") ∧
    (scoreResultW.score < 50 → scoreResultW.warning_level = "LOW") :=
  score_cluster_bounds_and_warning [tx_of "w" 0 100000000] none scoreResultW
    (by norm_num [score_cluster, scoreResultW, tx_of, np_mean, np_var, pymod,
      size_score_fn, uniformity_score_fn, round_score_fn, time_score_fn, warning_level_fn])

/-- C5: the pattern hash is invariant under permutation of the transaction
ids — it is computed over a canonically sorted copy of the list. -/
theorem generate_pattern_hash_perm_invariant (l l2 : List String)
    (h : List.Perm l l2) :
    generate_pattern_hash l = generate_pattern_hash l2 := by
  have hs : py_sorted l = py_sorted l2 := by
    rw [py_sorted, py_sorted]
    apply List.eq_of_perm_of_sorted (r := fun a b : String => a ≤ b)
    · exact (List.mergeSort_perm l _).trans (h.trans (List.mergeSort_perm l2 _).symm)
    · exact List.sorted_mergeSort' l
    · exact List.sorted_mergeSort' l2
  rw [generate_pattern_hash, generate_pattern_hash, hs]

/-- Witness for C5 on the two-element permutation. -/
theorem generate_pattern_hash_perm_invariant_witness :
    List.Perm ["b", "a"] ["a", "b"] ∧
    generate_pattern_hash ["b", "a"] = generate_pattern_hash ["a", "b"] :=
  ⟨List.Perm.swap "a" "b" [],
   generate_pattern_hash_perm_invariant _ _ (List.Perm.swap "a" "b" [])⟩

/-- C10: on a cluster whose mean amount is zero the scorer defines the
coefficient of variation to be 0 (no division happens) and awards the
maximal 15 uniformity points. -/
theorem zero_mean_uniformity (cluster : List Tx) (shield : Option Tx)
    (r : ScoreResult) (h : score_cluster cluster shield = some r)
    (hmean : np_mean (cluster.map Tx.amount_zat) = 0) :
    r.cv2 = 0 ∧ r.uniformity_points = 15 := by
  cases cluster with
  | nil => simp [score_cluster] at h
  | cons t ts =>
    simp only [score_cluster] at h
    rw [Option.some.injEq] at h
    subst h
    dsimp only
    rw [hmean]
    norm_num [uniformity_score_fn]

/-- Witness for C10 at a singleton cluster of one zero-amount transaction. -/
theorem zero_mean_uniformity_witness :
    np_mean ([tx_of "z1" 0 0].map Tx.amount_zat) = 0 ∧
    (scoreResultZ.cv2 = 0 ∧ scoreResultZ.uniformity_points = 15) :=
  ⟨by norm_num [np_mean, tx_of],
   zero_mean_uniformity [tx_of "z1" 0 0] none scoreResultZ
    (by norm_num [score_cluster, scoreResultZ, tx_of, np_mean, np_var, pymod,
      size_score_fn, uniformity_score_fn, round_score_fn, time_score_fn, warning_level_fn])
    (by norm_num [np_mean, tx_of])⟩

/-- C9 counterexample: a batch of three zero-amount (non-positive, hence
malformed) transactions is not excluded from clustering — the clusterer
returns one cluster containing all three offending records. The relation
`fun _ _ => true` is the neighbourhood test of the source on this batch:
all amounts are equal, so every pairwise log-distance is 0 ≤ eps. -/
theorem malformed_included_counterexample :
    cluster_by_amount (fun _ _ => true)
        [tx_of "m1" 0 0, tx_of "m2" 0 0, tx_of "m3" 0 0] 3 =
      [(0, [tx_of "m1" 0 0, tx_of "m2" 0 0, tx_of "m3" 0 0])] ∧
    (tx_of "m1" 0 0).amount_zat ≤ 0 :=
  ⟨by decide, by decide⟩

/-- C9 as amended: `cluster_by_amount` performs no validation of record
amounts: a transaction with non-positive amount is clustered like any
other record whenever the neighbourhood relation holds on its batch
(e.g. equal amounts), rather than being excluded with a warning. -/
theorem malformed_records_clustered (x y z : Tx) (hx : x.amount_zat ≤ 0) :
    cluster_by_amount (fun _ _ => true) [x, y, z] 3 = [(0, [x, y, z])] := rfl

/-- Witness for the amended C9 at three concrete zero-amount records. -/
theorem malformed_records_clustered_witness :
    (tx_of "n1" 0 0).amount_zat ≤ 0 ∧
    cluster_by_amount (fun _ _ => true)
        [tx_of "n1" 0 0, tx_of "n2" 0 0, tx_of "n3" 0 0] 3 =
      [(0, [tx_of "n1" 0 0, tx_of "n2" 0 0, tx_of "n3" 0 0])] :=
  ⟨by decide, malformed_records_clustered _ _ _ (by decide)⟩

/-- Every pattern assembled by the pipeline loop carries a score of at
least 35: lower-scoring clusters are dropped before assembly. -/
theorem collect_patterns_score_ge (fetch_shields : ℤ → ℤ → List Tx)
    (clusters : List (ℕ × List Tx)) (min_cluster_size : ℕ) :
    ∀ p ∈ collect_patterns fetch_shields clusters min_cluster_size, 35 ≤ p.score := by
  intro p hp
  rw [collect_patterns, List.mem_filterMap] at hp
  obtain ⟨lc, _hmem, he⟩ := hp
  simp only at he
  split at he
  · exact absurd he (by simp)
  · split at he
    · exact absurd he (by simp)
    · rename_i r _heq
      split at he
      · exact absurd he (by simp)
      · rename_i hge
        rw [Option.some.injEq] at he
        subst he
        show 35 ≤ r.score
        omega

/-- C8: every pattern the pipeline returns scores at least 35, the result
is sorted by descending score, and the sort is stable: for each score
value the returned patterns keep the order in which the loop assembled
them from the clusters (cluster discovery order). -/
theorem detect_patterns_score_sorted_stable (close : Tx → Tx → Bool)
    (fetch_shields : ℤ → ℤ → List Tx) (deshields : List Tx) (min_cluster_size : ℕ) :
    (∀ p ∈ detect_patterns close fetch_shields deshields min_cluster_size, 35 ≤ p.score) ∧
    List.Pairwise (fun a b : Pattern => b.score ≤ a.score)
      (detect_patterns close fetch_shields deshields min_cluster_size) ∧
    ∀ s : ℕ,
      (detect_patterns close fetch_shields deshields min_cluster_size).filter
          (fun p => p.score == s) =
        (collect_patterns fetch_shields
            (cluster_by_amount close deshields min_cluster_size)
            min_cluster_size).filter
          (fun p => p.score == s) := by
  have htrans : ∀ (a b c : Pattern),
      (fun a b : Pattern => decide (b.score ≤ a.score)) a b = true →
      (fun a b : Pattern => decide (b.score ≤ a.score)) b c = true →
      (fun a b : Pattern => decide (b.score ≤ a.score)) a c = true := by
    intro a b c hab hbc
    simp only [decide_eq_true_eq] at hab hbc ⊢
    omega
  have htotal : ∀ (a b : Pattern),
      ((fun a b : Pattern => decide (b.score ≤ a.score)) a b ||
       (fun a b : Pattern => decide (b.score ≤ a.score)) b a) = true := by
    intro a b
    simp only [Bool.or_eq_true, decide_eq_true_eq]
    omega
  refine ⟨?_, ?_, ?_⟩
  · intro p hp
    rw [detect_patterns] at hp
    split at hp
    · simp at hp
    · exact collect_patterns_score_ge _ _ _ p ((List.mergeSort_perm _ _).mem_iff.mp hp)
  · rw [detect_patterns]
    split
    · exact List.Pairwise.nil
    · exact (List.sorted_mergeSort htrans htotal _).imp (fun h => of_decide_eq_true h)
  · intro s
    rw [detect_patterns]
    split
    · rename_i hguard
      rw [cluster_by_amount, if_pos hguard]
      simp [collect_patterns]
    · have h1 : ((collect_patterns fetch_shields
          (cluster_by_amount close deshields min_cluster_size)
          min_cluster_size).filter (fun p => p.score == s)).Pairwise
          (fun a b : Pattern => (fun a b : Pattern => decide (b.score ≤ a.score)) a b = true) := by
        apply List.pairwise_of_forall_mem_list
        intro a ha b hb
        rw [List.mem_filter] at ha hb
        have ha2 : a.score = s := by simpa using ha.2
        have hb2 : b.score = s := by simpa using hb.2
        simp [ha2, hb2]
      have h2 := List.mergeSort_stable htrans htotal h1
        (List.filter_sublist (l := collect_patterns fetch_shields
          (cluster_by_amount close deshields min_cluster_size) min_cluster_size))
      have h3 := h2.filter (fun p => p.score == s)
      rw [List.filter_eq_self.mpr
        (fun a ha => (List.mem_filter.mp ha).2)] at h3
      have h5 := (List.mergeSort_perm (collect_patterns fetch_shields
        (cluster_by_amount close deshields min_cluster_size) min_cluster_size)
        (fun a b => decide (b.score ≤ a.score))).filter (fun p => p.score == s)
      exact (h3.eq_of_length h5.length_eq.symm).symm
